import Mathlib

/-!
# Verification of the airline MCP servers

Shallow embedding of the two request/response servers of this repository:
the flight-operations server (`flight-ops-server.js`) and the
customer-service server (the updated server in `test-mcp.js`).

Store tables are modelled as Lean lists of records; a DynamoDB scan with a
filter expression becomes `List.filter`; a put becomes appending the written
item; `Date.now()` and `new Date().toISOString()` become explicit parameters
(`now : Nat`, `isoNow : String`).  JavaScript's `x || d` default idiom is
modelled by `jsStringOr` / `jsNumOr`, which also map the falsy values `""`
and `0` to the default, exactly as JavaScript does.  Scheduled departure
times are modelled as integers (epoch milliseconds), matching the numeric
comparator `new Date(a) - new Date(b)`.  JavaScript's `Array.prototype.sort`
is stable (ECMA 2019), so it is embedded as the stable `List.mergeSort` with
the Boolean relation "comparator result is nonpositive".
-/

/-- JavaScript `String.prototype.toLowerCase()` restricted to ASCII (every
status literal in the repository is ASCII): lowercase each character. -/
def jsToLower (s : String) : String := ⟨s.data.map Char.toLower⟩

namespace FlightOps

/-- A record of the `Flights` table.  Attributes that may be absent on a
record are `Option`-valued. -/
structure Flight where
  FlightNumber : String
  Origin : String
  Destination : String
  Status : Option String
  DelayMinutes : Option Int
  ScheduledDepartureTime : Int
  AvailableSeats : Int
  deriving DecidableEq, Repr

/-- JavaScript `v || d` for string-valued attributes: `undefined`/missing and
the empty string are falsy and give the default. -/
def jsStringOr (v : Option String) (d : String) : String :=
  match v with
  | none => d
  | some s => if s = "" then d else s

/-- JavaScript `v || d` for numeric attributes: `undefined`/missing and `0`
are falsy and give the default. -/
def jsNumOr (v : Option Int) (d : Int) : Int :=
  match v with
  | none => d
  | some n => if n = 0 then d else n

/-- Function `isDelayedStatus` of `flight-ops-server.js`: `!status` (absent or empty)
is false, otherwise compare the lowercased status against the three
delay-indicating values. -/
def isDelayedStatus (status : Option String) : Bool :=
  match status with
  | none => false
  | some s =>
    if s = "" then false
    else jsToLower s == "delayed" || jsToLower s == "cancelled" || jsToLower s == "diverted"

/-- Expression `flight.Status ? flight.Status.toLowerCase() : ""` of the severity
filter in `check_flight_delays`. -/
def statusLower (status : Option String) : String :=
  match status with
  | none => ""
  | some s => if s = "" then "" else jsToLower s

/-- The repeated expression `delayMinutes > 0 || isDelayedStatus(flight.Status)`
(with `delayMinutes = flight.DelayMinutes || 0`), used both inside the
severity filter (`hasDelay`) and in the `"all"` branch of
`check_flight_delays`. -/
def hasActualDelay (f : Flight) : Bool :=
  decide (0 < jsNumOr f.DelayMinutes 0) || isDelayedStatus f.Status

/-- The per-flight predicate of the severity branch of `check_flight_delays`
(`flight-ops-server.js`, the `flights.filter` callback for a non-`"all"`
severity): flights without an actual delay are dropped, then the `switch`
on the severity string decides the bucket, with `default: return true`. -/
def bucketPred (severity : String) (f : Flight) : Bool :=
  let delayMinutes : Int := jsNumOr f.DelayMinutes 0
  let hasDelay : Bool := decide (0 < delayMinutes) || isDelayedStatus f.Status
  if !hasDelay then false
  else
    let sl := statusLower f.Status
    if severity = "minor" then
      decide (30 ≤ delayMinutes) && decide (delayMinutes ≤ 60)
    else if severity = "major" then
      decide (60 < delayMinutes) && decide (delayMinutes ≤ 120)
    else if severity = "severe" then
      decide (120 < delayMinutes) || sl == "cancelled" || sl == "diverted"
    else true

/-- The in-memory filtering stage of `check_flight_delays`: for a non-`"all"`
severity apply `bucketPred`; for `"all"` keep exactly the flights with an
actual delay.  The argument default `args?.severity || "all"` is applied
here. -/
def severityFilter (severityArg : Option String) (flights : List Flight) : List Flight :=
  let severity := jsStringOr severityArg "all"
  if severity ≠ "all" then flights.filter (fun f => bucketPred severity f)
  else flights.filter (fun f => hasActualDelay f)

/-- The DynamoDB scan filter of `check_flight_delays`: status equal to one of
the six literal delay statuses, or an existing positive `DelayMinutes`.  When
the airport argument is not `"all"`, the code appends ` AND Origin = :airport`
to the expression string; DynamoDB gives `AND` higher precedence than `OR`,
so the origin conjunct binds only to the delay-minutes disjunct and a
status-matched flight is fetched regardless of its origin. -/
def delaysScanPred (airport : String) (f : Flight) : Bool :=
  let statusMatch :=
    f.Status == some "delayed" || f.Status == some "DELAYED" ||
    f.Status == some "cancelled" || f.Status == some "CANCELLED" ||
    f.Status == some "diverted" || f.Status == some "DIVERTED"
  let delayMatch := f.DelayMinutes.isSome && decide (0 < f.DelayMinutes.getD 0)
  if airport ≠ "all" then statusMatch || (delayMatch && f.Origin == airport)
  else statusMatch || delayMatch

/-- The `check_flight_delays` pipeline over a given `Flights` table:
argument defaults (`args?.airport || "FRA"`, `args?.severity || "all"`),
the scan filter, then the in-memory severity filter.  The result is the
list of flights reported in the summary. -/
def check_flight_delays (airportArg severityArg : Option String)
    (table : List Flight) : List Flight :=
  let airport := jsStringOr airportArg "FRA"
  let flights := table.filter (delaysScanPred airport)
  severityFilter severityArg flights

/-- Function `getRecommendationReason` of `flight-ops-server.js`: a fixed string per
passenger tier, defaulting for any other tier. -/
def getRecommendationReason (passenger_tier : String) : String :=
  if passenger_tier = "senator" then "Premium service prioritized for Senator status"
  else if passenger_tier = "frequent_traveler" then "Earliest available departure for frequent traveler"
  else "Available alternative flight"

/-- The DynamoDB scan filter of `find_alternative_flights`:
`Origin = :origin AND Destination = :destination` and status equal to one of
the four literal on-time/scheduled values. -/
def altScanPred (origin destination : String) (f : Flight) : Bool :=
  f.Origin == origin && f.Destination == destination &&
    (f.Status == some "on_time" || f.Status == some "ON_TIME" ||
     f.Status == some "scheduled" || f.Status == some "SCHEDULED")

/-- The sort relation of `find_alternative_flights`: the JavaScript comparator
`new Date(a.ScheduledDepartureTime) - new Date(b.ScheduledDepartureTime)`
puts `a` before `b` when the difference is nonpositive. -/
def depLe (a b : Flight) : Bool :=
  decide (a.ScheduledDepartureTime ≤ b.ScheduledDepartureTime)

/-- The `find_alternative_flights` pipeline over a given `Flights` table:
scan by origin/destination/on-time status, sort ascending by scheduled
departure time (stable sort), keep the first 5 (`flights.slice(0, 5)`).
The result is the list of flights reported as `options`. -/
def find_alternative_flights (origin destination : String)
    (table : List Flight) : List Flight :=
  let flights := table.filter (altScanPred origin destination)
  ((flights.mergeSort depLe).take 5)

/-- A record of the `Passengers` table as used by `get_affected_passengers`. -/
structure Passenger where
  PassengerId : String
  BookingReference : String
  FrequentFlyerTier : Option String
  deriving DecidableEq, Repr

/-- The `tierOrder` lookup of the `get_affected_passengers` comparator:
`{ senator: 3, frequent_traveler: 2, regular: 1 }[tier] || 0`, so a missing
tier or any other value yields 0. -/
def tierOrder (tier : Option String) : Int :=
  match tier with
  | none => 0
  | some s =>
    if s = "senator" then 3
    else if s = "frequent_traveler" then 2
    else if s = "regular" then 1
    else 0

/-- The sort relation of `get_affected_passengers`: the comparator
`tierOrder[b.FrequentFlyerTier] - tierOrder[a.FrequentFlyerTier]` puts `a`
before `b` when the difference is nonpositive, i.e. descending by tier
rank. -/
def tierGe (a b : Passenger) : Bool :=
  decide (tierOrder b.FrequentFlyerTier ≤ tierOrder a.FrequentFlyerTier)

/-- The sorting stage of `get_affected_passengers`, applied to the surviving
passenger records (the lookups that did not fail): stable sort descending by
tier rank. -/
def sortAffectedPassengers (passengers : List Passenger) : List Passenger :=
  passengers.mergeSort tierGe

end FlightOps

namespace CustomerService

/-- A record of the `Passengers` table as read by the customer-service
server (`generate_proactive_message` scans on `PassengerId` and reads
`FrequentFlyerTier`). -/
structure CSPassenger where
  PassengerId : String
  FrequentFlyerTier : Option String
  deriving DecidableEq, Repr

/-- The two fixed message templates of `generate_proactive_message`.  Their
bodies are fixed string constants in the source ("Dear Valued Senator
Member, ..." and "Hello, ..." respectively); only which one is selected
matters to the behaviour, so they are represented by tags. -/
inductive MessageTemplate
  | senatorTemplate
  | genericTemplate
  deriving DecidableEq, Repr

/-- The `delay_info` argument object of `generate_proactive_message`. -/
structure DelayInfo where
  flight_number : String
  reason : String
  delay_minutes : Int
  deriving DecidableEq, Repr

/-- The JSON payload returned by `generate_proactive_message` when the
passenger is found. -/
structure GPMPayload where
  passenger_tier : String
  message_type : String
  template : MessageTemplate
  deriving DecidableEq, Repr

/-- The result of `generate_proactive_message`: either the not-found text or
the JSON payload. -/
inductive GPMResult
  | notFound (text : String)
  | payload (p : GPMPayload)
  deriving DecidableEq, Repr

/-- A record of the `DelayNotifications` table, as written by
`create_delay_notification`. -/
structure DelayNotification where
  NotificationId : String
  CreatedAt : String
  PassengerId : String
  FlightNumber : String
  DelayMinutes : Int
  NotificationType : String
  MessageContent : Option String
  Status : String
  DeliveredAt : String
  deriving DecidableEq, Repr

/-- The JSON response echoed by `create_delay_notification`. -/
structure CDNResponse where
  notification_id : String
  status : String
  passenger_id : String
  flight_number : String
  notification_type : String
  created_at : String
  deriving DecidableEq, Repr

/-- A record of the `CustomerSupportSessions` table, as written by
`start_support_session` (`Resolution: null` is `none`). -/
structure SupportSession where
  SessionId : String
  CreatedAt : String
  PassengerId : String
  AgentId : String
  IssueType : String
  InitialContext : String
  Status : String
  Messages : List String
  Resolution : Option String
  deriving DecidableEq, Repr

/-- The JSON response echoed by `start_support_session`. -/
structure SSSResponse where
  session_id : String
  status : String
  passenger_id : String
  issue_type : String
  agent_id : String
  created_at : String
  deriving DecidableEq, Repr

/-- The `handoff` object built by `escalation_handoff` (the `context`
sub-object is flattened into the fields `conversation_summary`,
`recommended_agent_type` and `preparation_notes`). -/
structure Handoff where
  escalation_id : String
  passenger_id : String
  issue_complexity : String
  priority : String
  conversation_summary : String
  recommended_agent_type : String
  preparation_notes : List String
  handoff_reason : String
  deriving DecidableEq, Repr

/-- The persistent store as seen by the customer-service server: the table
scanned by `generate_proactive_message` and the two tables written by
`create_delay_notification` and `start_support_session`. -/
structure CSState where
  passengers : List CSPassenger
  delayNotifications : List DelayNotification
  supportSessions : List SupportSession
  deriving DecidableEq, Repr

/-- Handler `generate_proactive_message` of the customer-service server in
`test-mcp.js`: scan `Passengers` with `PassengerId = :id`; if no record
matches, return the not-found text; otherwise take the first record, default
a missing (or empty) `FrequentFlyerTier` to `"regular"`, and select the
senator template exactly when the tier is `"senator"`.  The `message_tone`
argument is accepted but never read.  The handler performs no store write,
so the state is returned unchanged. -/
def generate_proactive_message (passenger_id : String) (delay_info : DelayInfo)
    (alternatives : Bool) (message_tone : Option String)
    (st : CSState) : CSState × GPMResult :=
  let found := st.passengers.filter (fun p => p.PassengerId == passenger_id)
  match found with
  | [] => (st, .notFound ("Passenger " ++ passenger_id ++ " not found"))
  | passenger :: _ =>
    let tier := FlightOps.jsStringOr passenger.FrequentFlyerTier "regular"
    let template :=
      if tier = "senator" then MessageTemplate.senatorTemplate
      else MessageTemplate.genericTemplate
    (st, .payload { passenger_tier := tier,
                    message_type := "proactive_delay_notification",
                    template := template })

/-- Function `getHandoffReason` of `test-mcp.js`: a canned reason string per issue
complexity. -/
def getHandoffReason (complexity : String) : String :=
  if complexity = "vip_handling" then
    "VIP customer requires personalized attention and premium service"
  else if complexity = "complex_itinerary" then
    "Multiple flights/complex routing requires specialist handling"
  else if complexity = "compensation_required" then
    "Customer may be entitled to compensation - requires policy expertise"
  else if complexity = "simple_rebooking" then
    "Standard rebooking that couldn\x27t be completed automatically"
  else "General customer service assistance required"

/-- Handler `escalation_handoff` of `test-mcp.js`: pure computation of the handoff
object.  Priority is `HIGH` for `vip_handling`, `MEDIUM` for
`compensation_required`, else `NORMAL`; the recommended agent type is
`Senior VIP Agent` for `vip_handling`, `Specialist Agent` for
`complex_itinerary`, else `Standard Agent`.  `Date.now()` is the `now`
parameter; `conversation_history` defaults to `[]` upstream.  No store
command is issued, so the state is returned unchanged. -/
def escalation_handoff (now : Nat) (passenger_id issue_complexity : String)
    (conversation_history : List String) (st : CSState) : CSState × Handoff :=
  let priority :=
    if issue_complexity = "vip_handling" then "HIGH"
    else if issue_complexity = "compensation_required" then "MEDIUM"
    else "NORMAL"
  let agentType :=
    if issue_complexity = "vip_handling" then "Senior VIP Agent"
    else if issue_complexity = "complex_itinerary" then "Specialist Agent"
    else "Standard Agent"
  (st,
   { escalation_id := "ESC_" ++ toString now,
     passenger_id := passenger_id,
     issue_complexity := issue_complexity,
     priority := priority,
     conversation_summary :=
       if conversation_history.length > 0 then
         "Customer has had " ++ toString conversation_history.length ++ " previous interactions"
       else "First contact",
     recommended_agent_type := agentType,
     preparation_notes :=
       ["Customer is already aware of delay",
        "Alternative options have been presented",
        "Customer preferences are documented in profile"],
     handoff_reason := getHandoffReason issue_complexity })

/-- Handler `create_delay_notification` of `test-mcp.js`: build the notification
record (id `NOTIFY_` + `Date.now()`, `Status: "sent"`, `notification_type`
defaulting to `"email"` when the argument is absent), put it into the
`DelayNotifications` table, and echo the response object. -/
def create_delay_notification (now : Nat) (isoNow : String)
    (passenger_id flight_number : String) (delay_minutes : Int)
    (notification_type : Option String) (message_content : Option String)
    (st : CSState) : CSState × CDNResponse :=
  let nt := notification_type.getD "email"
  let notificationId := "NOTIFY_" ++ toString now
  let notification : DelayNotification :=
    { NotificationId := notificationId,
      CreatedAt := isoNow,
      PassengerId := passenger_id,
      FlightNumber := flight_number,
      DelayMinutes := delay_minutes,
      NotificationType := nt,
      MessageContent := message_content,
      Status := "sent",
      DeliveredAt := isoNow }
  ({ st with delayNotifications := st.delayNotifications ++ [notification] },
   { notification_id := notificationId,
     status := "created",
     passenger_id := passenger_id,
     flight_number := flight_number,
     notification_type := nt,
     created_at := isoNow })

/-- Handler `start_support_session` of `test-mcp.js`: build the session record
(id `SESSION_` + `Date.now()`, `Status: "active"`, empty `Messages`,
`Resolution: null`, `agent_id` defaulting to `"AI_ASSISTANT"` and
`initial_context` to `""` when absent), put it into the
`CustomerSupportSessions` table, and echo the response object with status
`"started"`. -/
def start_support_session (now : Nat) (isoNow : String)
    (passenger_id issue_type : String)
    (initial_context : Option String) (agent_id : Option String)
    (st : CSState) : CSState × SSSResponse :=
  let ic := initial_context.getD ""
  let aid := agent_id.getD "AI_ASSISTANT"
  let sessionId := "SESSION_" ++ toString now
  let session : SupportSession :=
    { SessionId := sessionId,
      CreatedAt := isoNow,
      PassengerId := passenger_id,
      AgentId := aid,
      IssueType := issue_type,
      InitialContext := ic,
      Status := "active",
      Messages := [],
      Resolution := none }
  ({ st with supportSessions := st.supportSessions ++ [session] },
   { session_id := sessionId,
     status := "started",
     passenger_id := passenger_id,
     issue_type := issue_type,
     agent_id := aid,
     created_at := isoNow })

end CustomerService

/-!
## Sample data

Concrete records used to instantiate the universally quantified theorems.
-/

namespace FlightOps

/-- A cancelled flight with a 45-minute delay.  It satisfies both the
`minor` bucket predicate (delay in [30,60]) and the `severe` bucket
predicate (status cancelled). -/
def c1Flight : Flight :=
  { FlightNumber := "LH123", Origin := "FRA", Destination := "JFK",
    Status := some "cancelled", DelayMinutes := some 45,
    ScheduledDepartureTime := 0, AvailableSeats := 0 }

/-- A plainly delayed flight departing from the default airport FRA. -/
def sampleDelayedFlight : Flight :=
  { FlightNumber := "LH441", Origin := "FRA", Destination := "JFK",
    Status := some "delayed", DelayMinutes := some 95,
    ScheduledDepartureTime := 1700000000000, AvailableSeats := 12 }

end FlightOps

namespace CustomerService

/-- A store holding a single senator-tier passenger. -/
def w4State : CSState :=
  { passengers := [{ PassengerId := "P1", FrequentFlyerTier := some "senator" }],
    delayNotifications := [], supportSessions := [] }

/-- The one passenger of `w4State`. -/
def w4Passenger : CSPassenger := { PassengerId := "P1", FrequentFlyerTier := some "senator" }

/-- A concrete `delay_info` argument. -/
def wDelayInfo : DelayInfo :=
  { flight_number := "LH441", reason := "weather", delay_minutes := 45 }

/-- The empty store. -/
def emptyCSState : CSState :=
  { passengers := [], delayNotifications := [], supportSessions := [] }

end CustomerService

/-!
## Helper lemmas
-/

namespace FlightOps

/-- A flight whose lowercased status reads `cancelled` has a delay-indicating
status. -/
theorem statusLower_cancelled_isDelayed (st : Option String)
    (h : statusLower st = "cancelled") : isDelayedStatus st = true := by
  cases st with
  | none => simp [statusLower] at h
  | some s =>
    by_cases hs : s = ""
    · simp [statusLower, hs] at h
    · simp only [statusLower, if_neg hs] at h
      simp [isDelayedStatus, hs, h]

/-- A flight whose lowercased status reads `diverted` has a delay-indicating
status. -/
theorem statusLower_diverted_isDelayed (st : Option String)
    (h : statusLower st = "diverted") : isDelayedStatus st = true := by
  cases st with
  | none => simp [statusLower] at h
  | some s =>
    by_cases hs : s = ""
    · simp [statusLower, hs] at h
    · simp only [statusLower, if_neg hs] at h
      simp [isDelayedStatus, hs, h]

/-- Extensional characterisation of the `minor` bucket: exactly the flights
whose delay minutes lie in [30, 60]. -/
theorem bucketPred_minor_iff (f : Flight) :
    bucketPred "minor" f = true ↔
      30 ≤ jsNumOr f.DelayMinutes 0 ∧ jsNumOr f.DelayMinutes 0 ≤ 60 := by
  cases hd : (decide (0 < jsNumOr f.DelayMinutes 0) || isDelayedStatus f.Status) with
  | false =>
    simp only [Bool.or_eq_false_iff, decide_eq_false_iff_not] at hd
    simp [bucketPred, hd.1, hd.2]
    omega
  | true => simp [bucketPred, hd]

/-- Extensional characterisation of the `major` bucket: exactly the flights
whose delay minutes lie in (60, 120]. -/
theorem bucketPred_major_iff (f : Flight) :
    bucketPred "major" f = true ↔
      60 < jsNumOr f.DelayMinutes 0 ∧ jsNumOr f.DelayMinutes 0 ≤ 120 := by
  cases hd : (decide (0 < jsNumOr f.DelayMinutes 0) || isDelayedStatus f.Status) with
  | false =>
    simp only [Bool.or_eq_false_iff, decide_eq_false_iff_not] at hd
    simp [bucketPred, hd.1, hd.2]
    omega
  | true => simp [bucketPred, hd]

/-- Extensional characterisation of the `severe` bucket: delay minutes above
120 or a (case-insensitively) cancelled or diverted status. -/
theorem bucketPred_severe_iff (f : Flight) :
    bucketPred "severe" f = true ↔
      (120 < jsNumOr f.DelayMinutes 0 ∨ statusLower f.Status = "cancelled"
        ∨ statusLower f.Status = "diverted") := by
  cases hd : (decide (0 < jsNumOr f.DelayMinutes 0) || isDelayedStatus f.Status) with
  | false =>
    simp only [Bool.or_eq_false_iff, decide_eq_false_iff_not] at hd
    simp only [bucketPred, hd.1, hd.2]
    constructor
    · intro h
      simp at h
    · rintro (h | h | h)
      · omega
      · exact absurd (statusLower_cancelled_isDelayed _ h) (by simp [hd.2])
      · exact absurd (statusLower_diverted_isDelayed _ h) (by simp [hd.2])
  | true => simp [bucketPred, hd, or_assoc]

/-- Every flight passing a severity bucket also passes the actual-delay
check (the bucket predicates test `hasDelay` first). -/
theorem bucketPred_hasDelay (severity : String) (f : Flight)
    (h : bucketPred severity f = true) : hasActualDelay f = true := by
  cases hd : (decide (0 < jsNumOr f.DelayMinutes 0) || isDelayedStatus f.Status) with
  | false => simp [bucketPred, hd] at h
  | true => simpa [hasActualDelay] using hd

/-- For a severity string outside the three named buckets, the bucket
predicate degenerates to the actual-delay check (`default: return true`). -/
theorem bucketPred_default_eq (s : String) (h1 : s ≠ "minor") (h2 : s ≠ "major")
    (h3 : s ≠ "severe") (f : Flight) : bucketPred s f = hasActualDelay f := by
  cases hd : (decide (0 < jsNumOr f.DelayMinutes 0) || isDelayedStatus f.Status) with
  | false =>
    simp [bucketPred, hasActualDelay, hd]
  | true =>
    simp [bucketPred, hasActualDelay, hd, h1, h2, h3]

/-- Transitivity of the departure-time sort relation. -/
theorem depLe_trans (a b c : Flight) (h1 : depLe a b) (h2 : depLe b c) : depLe a c := by
  simp only [depLe, decide_eq_true_eq] at *
  omega

/-- Totality of the departure-time sort relation. -/
theorem depLe_total (a b : Flight) : depLe a b || depLe b a := by
  simp only [depLe, Bool.or_eq_true, decide_eq_true_eq]
  omega

/-- Transitivity of the descending tier-rank sort relation. -/
theorem tierGe_trans (a b c : Passenger) (h1 : tierGe a b) (h2 : tierGe b c) : tierGe a c := by
  simp only [tierGe, decide_eq_true_eq] at *
  omega

/-- Totality of the descending tier-rank sort relation. -/
theorem tierGe_total (a b : Passenger) : tierGe a b || tierGe b a := by
  simp only [tierGe, Bool.or_eq_true, decide_eq_true_eq]
  omega

end FlightOps

namespace CustomerService

/-- The tier default of `generate_proactive_message` yields `"senator"`
exactly for a present, literally `"senator"` tier attribute. -/
theorem jsStringOr_regular_eq_senator_iff (t : Option String) :
    FlightOps.jsStringOr t "regular" = "senator" ↔ t = some "senator" := by
  cases t with
  | none => simp [FlightOps.jsStringOr]
  | some s =>
    by_cases hs : s = ""
    · simp [FlightOps.jsStringOr, hs]
    · simp [FlightOps.jsStringOr, hs]

end CustomerService

/-!
## Claim theorems
-/

namespace FlightOps

/-- Claim C1, counterexample to mutual exclusivity: a flight with status
`cancelled` and 45 delay minutes satisfies both the `minor` and the
`severe` bucket predicate, so the three buckets are not mutually
exclusive. -/
theorem c1_buckets_not_mutually_exclusive :
    bucketPred "minor" c1Flight = true ∧ bucketPred "severe" c1Flight = true := by
  constructor <;> decide

/-- Claim C1 (amended): the `minor` bucket holds exactly for delay minutes in
[30,60], `major` exactly for (60,120], and `severe` exactly for delay
minutes above 120 or a case-insensitively cancelled/diverted status;
`minor` and `major` are mutually exclusive, and `severe` overlaps `minor`
or `major` only when the lowercased status is cancelled or diverted. -/
theorem c1_severity_buckets_amended (f : Flight) :
    (bucketPred "minor" f = true ↔
        30 ≤ jsNumOr f.DelayMinutes 0 ∧ jsNumOr f.DelayMinutes 0 ≤ 60)
    ∧ (bucketPred "major" f = true ↔
        60 < jsNumOr f.DelayMinutes 0 ∧ jsNumOr f.DelayMinutes 0 ≤ 120)
    ∧ (bucketPred "severe" f = true ↔
        (120 < jsNumOr f.DelayMinutes 0 ∨ statusLower f.Status = "cancelled"
          ∨ statusLower f.Status = "diverted"))
    ∧ ¬(bucketPred "minor" f = true ∧ bucketPred "major" f = true)
    ∧ (bucketPred "minor" f = true → bucketPred "severe" f = true →
        statusLower f.Status = "cancelled" ∨ statusLower f.Status = "diverted")
    ∧ (bucketPred "major" f = true → bucketPred "severe" f = true →
        statusLower f.Status = "cancelled" ∨ statusLower f.Status = "diverted") := by
  refine ⟨bucketPred_minor_iff f, bucketPred_major_iff f, bucketPred_severe_iff f, ?_, ?_, ?_⟩
  · rintro ⟨h1, h2⟩
    rw [bucketPred_minor_iff] at h1
    rw [bucketPred_major_iff] at h2
    omega
  · intro h1 h2
    rw [bucketPred_minor_iff] at h1
    rw [bucketPred_severe_iff] at h2
    rcases h2 with h | h | h
    · omega
    · exact Or.inl h
    · exact Or.inr h
  · intro h1 h2
    rw [bucketPred_major_iff] at h1
    rw [bucketPred_severe_iff] at h2
    rcases h2 with h | h | h
    · omega
    · exact Or.inl h
    · exact Or.inr h

/-- Claim C1, witness: instantiating the amended theorem on the concrete
cancelled 45-minute flight, the minor/severe overlap conclusion evaluates. -/
theorem c1_severity_buckets_amended_witness :
    statusLower c1Flight.Status = "cancelled" ∨ statusLower c1Flight.Status = "diverted" :=
  (c1_severity_buckets_amended c1Flight).2.2.2.2.1 (by decide) (by decide)

/-- Claim C2: for every input flight list, `find_alternative_flights`
returns at most 5 results, and the returned list is non-decreasing by
scheduled departure time. -/
theorem c2_find_alternative_flights_sorted_and_bounded
    (origin destination : String) (table : List Flight) :
    (find_alternative_flights origin destination table).length ≤ 5
    ∧ (find_alternative_flights origin destination table).Pairwise
        (fun a b => a.ScheduledDepartureTime ≤ b.ScheduledDepartureTime) := by
  constructor
  · exact List.length_take_le 5 _
  · have hs := List.sorted_mergeSort depLe_trans depLe_total
      (table.filter (altScanPred origin destination))
    have hp : (((table.filter (altScanPred origin destination)).mergeSort depLe).take 5).Pairwise
        (fun a b => depLe a b = true) := hs.sublist (List.take_sublist 5 _)
    exact hp.imp (fun h => by simpa [depLe] using h)

/-- Claim C3: the surviving passengers of `get_affected_passengers` are
sorted descending by the fixed tier rank (senator 3, frequent_traveler 2,
regular 1, missing or any other tier 0), and the sort is stable: at every
rank, the sorted list restricted to that rank is exactly the input list
restricted to that rank, in arrival order. -/
theorem c3_affected_passengers_sorted_stable (l : List Passenger) :
    (sortAffectedPassengers l).Pairwise
      (fun a b => tierOrder b.FrequentFlyerTier ≤ tierOrder a.FrequentFlyerTier)
    ∧ (∀ k : Int, (sortAffectedPassengers l).filter
          (fun p => tierOrder p.FrequentFlyerTier == k)
        = l.filter (fun p => tierOrder p.FrequentFlyerTier == k))
    ∧ tierOrder (some "senator") = 3 ∧ tierOrder (some "frequent_traveler") = 2
    ∧ tierOrder (some "regular") = 1 ∧ tierOrder none = 0
    ∧ (∀ t : String, t ≠ "senator" → t ≠ "frequent_traveler" → t ≠ "regular" →
        tierOrder (some t) = 0) := by
  refine ⟨?_, ?_, rfl, rfl, rfl, rfl, ?_⟩
  · have hs := List.sorted_mergeSort tierGe_trans tierGe_total l
    exact hs.imp (fun h => by simpa [tierGe] using h)
  · intro k
    set p : Passenger → Bool := fun q => tierOrder q.FrequentFlyerTier == k with hp
    have hpw : (l.filter p).Pairwise (fun a b => tierGe a b = true) := by
      apply List.pairwise_of_forall_mem_list
      intro a ha b hb
      have hak := (List.mem_filter.mp ha).2
      have hbk := (List.mem_filter.mp hb).2
      simp only [hp, beq_iff_eq] at hak hbk
      simp [tierGe, hak, hbk]
    have h2 : List.Sublist (l.filter p) (l.mergeSort tierGe) :=
      List.sublist_mergeSort tierGe_trans tierGe_total hpw (List.filter_sublist l)
    have h3 : List.Sublist (l.filter p) ((l.mergeSort tierGe).filter p) := by
      have h := h2.filter p
      rwa [List.filter_eq_self.mpr (fun a ha => (List.mem_filter.mp ha).2)] at h
    have h4 : ((l.mergeSort tierGe).filter p).length = (l.filter p).length :=
      ((List.mergeSort_perm l tierGe).filter p).length_eq
    exact (h3.eq_of_length h4.symm).symm
  · intro t h1 h2 h3
    simp [tierOrder, h1, h2, h3]

/-- Claim C3, witness: the amended-rank clause evaluates at an unknown tier
on a concrete call. -/
theorem c3_affected_passengers_sorted_stable_witness :
    tierOrder (some "platinum") = 0 :=
  (c3_affected_passengers_sorted_stable []).2.2.2.2.2.2 "platinum"
    (by decide) (by decide) (by decide)

/-- Claim C5: every flight returned by `check_flight_delays` (for any
airport and severity argument) has an actual delay, i.e. positive delay
minutes or a delayed/cancelled/diverted status; in particular, a flight
with status `on_time` is returned only with positive delay minutes, so an
on-time flight with zero or absent delay minutes is never returned. -/
theorem c5_only_genuine_delays_returned
    (airportArg severityArg : Option String) (table : List Flight) (f : Flight)
    (hmem : f ∈ check_flight_delays airportArg severityArg table) :
    hasActualDelay f = true
    ∧ (f.Status = some "on_time" → 0 < jsNumOr f.DelayMinutes 0) := by
  have hdelay : hasActualDelay f = true := by
    simp only [check_flight_delays, severityFilter] at hmem
    split at hmem
    · exact bucketPred_hasDelay _ f (List.mem_filter.mp hmem).2
    · exact (List.mem_filter.mp hmem).2
  refine ⟨hdelay, ?_⟩
  intro hstat
  simp only [hasActualDelay, Bool.or_eq_true, decide_eq_true_eq] at hdelay
  rcases hdelay with h | h
  · exact h
  · rw [hstat] at h
    exact absurd h (by decide)

/-- Claim C5, witness: a delayed flight is a member of a concrete
`check_flight_delays` result and the theorem applies to it. -/
theorem c5_only_genuine_delays_returned_witness :
    hasActualDelay sampleDelayedFlight = true
    ∧ (sampleDelayedFlight.Status = some "on_time"
        → 0 < jsNumOr sampleDelayedFlight.DelayMinutes 0) :=
  c5_only_genuine_delays_returned none none [sampleDelayedFlight] sampleDelayedFlight
    (by decide)

/-- Claim C9: a severity argument outside the four enum values behaves
exactly like `"all"` (the `switch` default returns every flight with an
actual delay), and a missing severity defaults to `"all"`. -/
theorem c9_unknown_severity_defaults_to_all
    (s : String) (h1 : s ≠ "minor") (h2 : s ≠ "major") (h3 : s ≠ "severe")
    (airportArg : Option String) (table : List Flight) :
    check_flight_delays airportArg (some s) table
      = check_flight_delays airportArg (some "all") table
    ∧ check_flight_delays airportArg none table
      = check_flight_delays airportArg (some "all") table := by
  have hall_eq : check_flight_delays airportArg (some "all") table
      = List.filter (fun f => hasActualDelay f)
          (List.filter (delaysScanPred (jsStringOr airportArg "FRA")) table) := rfl
  constructor
  · by_cases hs0 : s = ""
    · subst hs0; rfl
    · by_cases hall : s = "all"
      · subst hall; rfl
      · have hLHS : check_flight_delays airportArg (some s) table
            = List.filter (fun f => bucketPred s f)
                (List.filter (delaysScanPred (jsStringOr airportArg "FRA")) table) := by
          simp only [check_flight_delays, severityFilter]
          have hjs : jsStringOr (some s) "all" = s := by simp [jsStringOr, hs0]
          rw [hjs, if_pos hall]
        rw [hLHS, hall_eq]
        exact List.filter_congr (fun x _ => bucketPred_default_eq s h1 h2 h3 x)
  · rfl

/-- Claim C9, witness: the equality evaluates at the severity string
`unknown` on a one-flight table. -/
theorem c9_unknown_severity_defaults_to_all_witness :
    check_flight_delays none (some "unknown") [sampleDelayedFlight]
      = check_flight_delays none (some "all") [sampleDelayedFlight]
    ∧ check_flight_delays none none [sampleDelayedFlight]
      = check_flight_delays none (some "all") [sampleDelayedFlight] :=
  c9_unknown_severity_defaults_to_all "unknown" (by decide) (by decide) (by decide)
    none [sampleDelayedFlight]

end FlightOps

namespace CustomerService

/-- Claim C4: whenever the passenger scan finds a record (head passenger
`p`), `generate_proactive_message` returns a payload whose template is the
senator-branded one exactly when the found passenger's frequent-flyer tier
is literally `"senator"` (a missing tier defaults to `"regular"` and every
other tier selects the generic template), and the entire result is
independent of the `message_tone` argument. -/
theorem c4_template_selection
    (pid : String) (di : DelayInfo) (alts : Bool) (tone tone2 : Option String)
    (st : CSState) (p : CSPassenger) (rest : List CSPassenger)
    (hscan : st.passengers.filter (fun q => q.PassengerId == pid) = p :: rest) :
    (∃ pay : GPMPayload,
        (generate_proactive_message pid di alts tone st).2 = GPMResult.payload pay
        ∧ (pay.template = MessageTemplate.senatorTemplate
            ↔ p.FrequentFlyerTier = some "senator"))
    ∧ generate_proactive_message pid di alts tone st
        = generate_proactive_message pid di alts tone2 st := by
  constructor
  · simp only [generate_proactive_message, hscan]
    refine ⟨_, rfl, ?_⟩
    constructor
    · intro h
      by_cases ht : FlightOps.jsStringOr p.FrequentFlyerTier "regular" = "senator"
      · exact (jsStringOr_regular_eq_senator_iff _).mp ht
      · rw [if_neg ht] at h
        simp at h
    · intro h
      rw [if_pos ((jsStringOr_regular_eq_senator_iff _).mpr h)]
  · rfl

/-- Claim C4, witness: the template selection evaluates on a store holding a
single senator passenger, for two different tones. -/
theorem c4_template_selection_witness :
    (∃ pay : GPMPayload,
        (generate_proactive_message "P1" wDelayInfo false none w4State).2
            = GPMResult.payload pay
        ∧ (pay.template = MessageTemplate.senatorTemplate
            ↔ w4Passenger.FrequentFlyerTier = some "senator"))
    ∧ generate_proactive_message "P1" wDelayInfo false none w4State
        = generate_proactive_message "P1" wDelayInfo false (some "apologetic") w4State :=
  c4_template_selection "P1" wDelayInfo false none (some "apologetic") w4State
    w4Passenger [] (by decide)

/-- Claim C6: `create_delay_notification` appends to the notifications table
exactly one record, with `Status` `"sent"` and a `NotificationId` beginning
with `NOTIFY_`; when the `notification_type` argument is omitted, both the
written record and the echoed response carry notification type `"email"`. -/
theorem c6_create_delay_notification_record
    (now : Nat) (isoNow pid fn : String) (dm : Int) (ntArg mc : Option String)
    (st : CSState) :
    (∃ written : DelayNotification,
      (create_delay_notification now isoNow pid fn dm ntArg mc st).1.delayNotifications
          = st.delayNotifications ++ [written]
        ∧ written.Status = "sent"
        ∧ (∃ rest : String, written.NotificationId = "NOTIFY_" ++ rest)
        ∧ (create_delay_notification now isoNow pid fn dm ntArg mc st).2.notification_id
            = written.NotificationId)
    ∧ (∃ written : DelayNotification,
      (create_delay_notification now isoNow pid fn dm none mc st).1.delayNotifications
          = st.delayNotifications ++ [written]
        ∧ written.NotificationType = "email"
        ∧ (create_delay_notification now isoNow pid fn dm none mc st).2.notification_type
            = "email") :=
  ⟨⟨_, rfl, rfl, ⟨toString now, rfl⟩, rfl⟩, ⟨_, rfl, rfl, rfl⟩⟩

/-- Claim C7: `escalation_handoff` assigns priority `HIGH` and agent type
`Senior VIP Agent` to `vip_handling`, priority `MEDIUM` to
`compensation_required`, priority `NORMAL` to every other complexity, and
never touches the store (the state component of the result is the input
state, for every complexity). -/
theorem c7_escalation_handoff_priority
    (now : Nat) (pid : String) (ch : List String) (st : CSState) :
    ((escalation_handoff now pid "vip_handling" ch st).2.priority = "HIGH"
      ∧ (escalation_handoff now pid "vip_handling" ch st).2.recommended_agent_type
          = "Senior VIP Agent")
    ∧ (escalation_handoff now pid "compensation_required" ch st).2.priority = "MEDIUM"
    ∧ (∀ ic : String, ic ≠ "vip_handling" → ic ≠ "compensation_required" →
        (escalation_handoff now pid ic ch st).2.priority = "NORMAL")
    ∧ (∀ ic : String, (escalation_handoff now pid ic ch st).1 = st) := by
  refine ⟨⟨rfl, rfl⟩, rfl, ?_, fun ic => rfl⟩
  intro ic hv hc
  simp [escalation_handoff, hv, hc]

/-- Claim C7, witness: the `NORMAL` clause evaluates at the complexity
`simple_rebooking`. -/
theorem c7_escalation_handoff_priority_witness :
    (escalation_handoff 0 "P1" "simple_rebooking" [] emptyCSState).2.priority = "NORMAL" :=
  (c7_escalation_handoff_priority 0 "P1" [] emptyCSState).2.2.1 "simple_rebooking"
    (by decide) (by decide)

/-- Claim C8: when the passenger scan finds no record,
`generate_proactive_message` returns the exact text
`Passenger <id> not found` and leaves the store unchanged (no write is
attempted). -/
theorem c8_passenger_not_found
    (pid : String) (di : DelayInfo) (alts : Bool) (tone : Option String)
    (st : CSState)
    (hempty : st.passengers.filter (fun q => q.PassengerId == pid) = []) :
    generate_proactive_message pid di alts tone st
      = (st, GPMResult.notFound ("Passenger " ++ pid ++ " not found")) := by
  simp only [generate_proactive_message, hempty]

/-- Claim C8, witness: looking up `P9` in the empty store yields the
not-found text and the unchanged store. -/
theorem c8_passenger_not_found_witness :
    generate_proactive_message "P9" wDelayInfo false none emptyCSState
      = (emptyCSState, GPMResult.notFound ("Passenger " ++ "P9" ++ " not found")) :=
  c8_passenger_not_found "P9" wDelayInfo false none emptyCSState (by decide)

/-- Claim C10: `start_support_session` appends to the support-sessions table
exactly one record, with `Status` `"active"`, empty `Messages`, null
`Resolution` and a `SessionId` beginning with `SESSION_`, and echoes status
`"started"` with the same session id; when the `agent_id` argument is
omitted, both the record and the response carry agent id `"AI_ASSISTANT"`. -/
theorem c10_start_support_session_record
    (now : Nat) (isoNow pid it : String) (icArg aidArg : Option String)
    (st : CSState) :
    (∃ written : SupportSession,
      (start_support_session now isoNow pid it icArg aidArg st).1.supportSessions
          = st.supportSessions ++ [written]
        ∧ written.Status = "active"
        ∧ written.Messages = []
        ∧ written.Resolution = none
        ∧ (∃ rest : String, written.SessionId = "SESSION_" ++ rest)
        ∧ (start_support_session now isoNow pid it icArg aidArg st).2.status = "started"
        ∧ (start_support_session now isoNow pid it icArg aidArg st).2.session_id
            = written.SessionId)
    ∧ (∃ written : SupportSession,
      (start_support_session now isoNow pid it icArg none st).1.supportSessions
          = st.supportSessions ++ [written]
        ∧ written.AgentId = "AI_ASSISTANT"
        ∧ (start_support_session now isoNow pid it icArg none st).2.agent_id
            = "AI_ASSISTANT") :=
  ⟨⟨_, rfl, rfl, rfl, rfl, ⟨toString now, rfl⟩, rfl, rfl⟩, ⟨_, rfl, rfl, rfl⟩⟩

end CustomerService
